import Mathlib

/-!
Verification of the PTnPtn dashboard engine: a shallow embedding of the
state-continuity and scheduling logic found in `src/App.tsx`,
`src/services/geminiService.ts`, `src/types.ts` and the unnamed variant
`src/unnamed/part_000`, together with theorems settling the spec claims.

Numbers are modelled with `Nat` (integer counters, epoch-millisecond
timestamps) and `Rat` (the simulated percentage gauges and the values drawn
from `Math.random()`, which satisfy `0 ≤ r < 1`).
-/

namespace PTnPtn

/-! ## Data model (src/types.ts) -/

/-- `SystemStatus` enum from `src/types.ts`. -/
inductive SystemStatus where
  | ONLINE
  | AUTONOMOUS
  | LOCKED
  | ANALYZING
  | EXECUTING
  | OFFLINE_SYNC
  | DOWNTIME_CATCHUP
deriving DecidableEq, Repr

/-- The severity levels of `LogEntry.level` in `src/types.ts`. -/
inductive LogLevel where
  | INFO
  | SUCCESS
  | WARNING
  | ERROR
  | SOVEREIGN
deriving DecidableEq, Repr

/-- `LogEntry` interface from `src/types.ts`. -/
structure LogEntry where
  id : String
  timestamp : String
  level : LogLevel
  message : String
deriving DecidableEq, Repr

/-! ## Narrative generation (src/services/geminiService.ts) -/

/-- `FALLBACK_COMMANDS` from `src/services/geminiService.ts` (4 entries). -/
def FALLBACK_COMMANDS : List String :=
  [ "IDENTITY LOCK ENGAGED: Target status verified as \u0027Prestige Pillar\u0027 in Ayutthaya. #SovereignControl",
    "SOCIAL ANCHOR ACTIVE: 100 platforms broadcasting target influence. Withdrawal impossible. #AyutthayaMaster",
    "CONTROL ORBIT SECURED: Behavioral alignment at 99.8%. National omniscience confirmed. #Omniscience",
    "SOVEREIGN PROTOCOL: Target identity merged with public expectation. Deal lock complete. #AbsoluteControl" ]

/-- `FALLBACK_COMMANDS` from the variant `src/unnamed/part_000` (5 entries). -/
def FALLBACK_COMMANDS_V0 : List String :=
  [ "IDENTITY LOCK ENGAGED: Target status verified as \u0027Prestige Pillar\u0027 in Ayutthaya. #SovereignControl",
    "SOCIAL ANCHOR ACTIVE: 100 platforms broadcasting target influence. Withdrawal impossible. #AyutthayaMaster",
    "CONTROL ORBIT SECURED: Behavioral alignment at 99.8%. National omniscience confirmed. #Omniscience",
    "SOVEREIGN PROTOCOL: Target identity merged with public expectation. Deal lock complete. #AbsoluteControl",
    "AYUTTHAYA CORE: Provincial resonance at peak. Target behavior fully synchronized. #MasterPlan" ]

/-- Outcome of one attempted external generation call, as observed by
`generatePrecisionCaption`: the browser is offline (`navigator.onLine`
false), the call resolves with `response.text` (possibly absent or empty),
or the call throws. -/
inductive GenOutcome where
  | offline
  | success (text : Option String)
  | failure
deriving DecidableEq, Repr

/-- `Math.floor(r * n)` for a `Math.random()` draw `r`, as used to index
into the fallback pool. -/
def randIndex (r : ℚ) (n : ℕ) : ℕ :=
  (Int.floor (r * n)).toNat

/-- `generatePrecisionCaption` from `src/services/geminiService.ts`,
parametrised by the fallback pool (the two source variants differ only in
the pool and prompt text), the call outcome, and the `Math.random()` draw
`r`.  Offline: return a random pool entry.  Success: return
`response.text || FALLBACK_COMMANDS[0]`.  Thrown error: return a random
pool entry. -/
def generatePrecisionCaption (pool : List String) (out : GenOutcome) (r : ℚ) : String :=
  match out with
  | .offline => pool.getD (randIndex r pool.length) ""
  | .success text =>
      let t := text.getD ""
      if t = "" then pool.getD 0 "" else t
  | .failure => pool.getD (randIndex r pool.length) ""

lemma randIndex_lt {r : ℚ} {n : ℕ} (h0 : 0 ≤ r) (h1 : r < 1) (hn : 0 < n) :
    randIndex r n < n := by
  unfold randIndex
  have hlt : Int.floor (r * n) < (n : ℤ) := by
    rw [Int.floor_lt]
    push_cast
    have hn' : (0 : ℚ) < n := by exact_mod_cast hn
    calc r * n < 1 * n := by exact mul_lt_mul_of_pos_right h1 hn'
    _ = n := one_mul _
  omega

lemma getD_mem_of_lt {l : List String} {n : ℕ} (h : n < l.length) (d : String) :
    l.getD n d ∈ l := by
  rw [List.getD_eq_getElem l d h]
  exact List.getElem_mem h

/-- `generatePrecisionCaption` on a failing call (offline or thrown error)
returns an element of the given pool. -/
lemma generate_fail_mem (pool : List String) (out : GenOutcome) (r : ℚ)
    (hfail : out = .offline ∨ out = .failure) (h0 : 0 ≤ r) (h1 : r < 1)
    (hpool : pool ≠ []) :
    generatePrecisionCaption pool out r ∈ pool := by
  have hn : 0 < pool.length := List.length_pos.mpr hpool
  rcases hfail with h | h <;> subst h <;>
    exact getD_mem_of_lt (randIndex_lt h0 h1 hn) ""

/-- C1: whenever the external generation call fails (offline browser or a
thrown error), `generatePrecisionCaption` returns one of the strings of the
fixed non-empty `FALLBACK_COMMANDS` pool and never an empty string; this
holds for both source variants of the pool.  (The function is total, so it
never throws.) -/
theorem c1_fallback_on_failure (out : GenOutcome) (r : ℚ)
    (hfail : out = GenOutcome.offline ∨ out = GenOutcome.failure)
    (h0 : 0 ≤ r) (h1 : r < 1) :
    (generatePrecisionCaption FALLBACK_COMMANDS out r ∈ FALLBACK_COMMANDS ∧
      generatePrecisionCaption FALLBACK_COMMANDS out r ≠ "") ∧
    (generatePrecisionCaption FALLBACK_COMMANDS_V0 out r ∈ FALLBACK_COMMANDS_V0 ∧
      generatePrecisionCaption FALLBACK_COMMANDS_V0 out r ≠ "") := by
  have hne : FALLBACK_COMMANDS ≠ [] := by decide
  have hne0 : FALLBACK_COMMANDS_V0 ≠ [] := by decide
  have hmem := generate_fail_mem FALLBACK_COMMANDS out r hfail h0 h1 hne
  have hmem0 := generate_fail_mem FALLBACK_COMMANDS_V0 out r hfail h0 h1 hne0
  have hall : ∀ x ∈ FALLBACK_COMMANDS, x ≠ "" := by decide
  have hall0 : ∀ x ∈ FALLBACK_COMMANDS_V0, x ≠ "" := by decide
  exact ⟨⟨hmem, hall _ hmem⟩, ⟨hmem0, hall0 _ hmem0⟩⟩

/-- Witness for C1 at the concrete failing outcome `offline` with random
draw `1/2`. -/
theorem c1_fallback_on_failure_witness :
    generatePrecisionCaption FALLBACK_COMMANDS GenOutcome.offline (1/2)
      ∈ FALLBACK_COMMANDS ∧
    generatePrecisionCaption FALLBACK_COMMANDS GenOutcome.offline (1/2) ≠ "" :=
  (c1_fallback_on_failure GenOutcome.offline (1/2) (Or.inl rfl)
    (by norm_num) (by norm_num)).1

/-! ## Bounded event log (src/App.tsx, `addLog`) -/

/-- The log cap of the first `App.tsx` variant: `.slice(0, 100)`. -/
def LOG_CAP : ℕ := 100

/-- The log cap of the second `App.tsx` variant: `.slice(0, 50)`. -/
def LOG_CAP_V2 : ℕ := 50

/-- `addLog` from `src/App.tsx`: `setLogs(prev => [newLog, ...prev].slice(0, cap))`.
The freshly built entry (its generated id and formatted timestamp are taken
as parameters) is prepended and the list truncated to the first `cap`
entries. -/
def addLog (cap : ℕ) (e : LogEntry) (logs : List LogEntry) : List LogEntry :=
  (e :: logs).take cap

/-- Running a whole sequence of `addLog` calls, in call order, against an
initial log list. -/
def runLog (cap : ℕ) (calls : List LogEntry) (logs : List LogEntry) : List LogEntry :=
  calls.foldl (fun acc e => addLog cap e acc) logs

lemma take_append_take (n : ℕ) (A B : List LogEntry) :
    (A ++ B.take n).take n = (A ++ B).take n := by
  rw [List.take_append_eq_append_take, List.take_append_eq_append_take,
    List.take_take, Nat.min_eq_left (Nat.sub_le n A.length)]

lemma runLog_eq (cap : ℕ) (calls logs : List LogEntry)
    (hcap : 1 ≤ cap) (hlen : logs.length ≤ cap) :
    runLog cap calls logs = (calls.reverse ++ logs).take cap := by
  induction calls generalizing logs with
  | nil => simpa [runLog] using (List.take_of_length_le hlen).symm
  | cons c cs ih =>
      have hstep : runLog cap (c :: cs) logs = runLog cap cs (addLog cap c logs) := rfl
      have hlen' : (addLog cap c logs).length ≤ cap := by
        simp [addLog]
      rw [hstep, ih (addLog cap c logs) hlen']
      show (cs.reverse ++ (c :: logs).take cap).take cap = _
      rw [take_append_take, List.reverse_cons, List.append_assoc,
        List.singleton_append]

/-- C2: for every sequence of `addLog` calls against an initial log list
that respects the cap (as the program's initial empty list does), the
resulting list equals the newest-first concatenation of all appended
entries and the initial entries, truncated to the first `cap`; hence its
length never exceeds `cap`, each call prepends exactly one entry, the
retained entries are the most recent `cap` in their relative order, and
nothing but this truncation removes entries.  Instantiating `cap` with
`LOG_CAP = 100` or `LOG_CAP_V2 = 50` covers both source variants. -/
theorem c2_bounded_event_log (cap : ℕ) (calls logs : List LogEntry)
    (hcap : 1 ≤ cap) (hlen : logs.length ≤ cap) :
    (runLog cap calls logs).length ≤ cap ∧
    runLog cap calls logs = (calls.reverse ++ logs).take cap := by
  have h := runLog_eq cap calls logs hcap hlen
  refine ⟨?_, h⟩
  rw [h]
  exact le_trans (List.length_take_le cap _) le_rfl

/-- Witness for C2: three concrete appends against an empty log with cap 2
keep only the two newest entries, newest first. -/
theorem c2_bounded_event_log_witness :
    (runLog 2
        ([ ⟨"a", "t1", LogLevel.INFO, "m1"⟩,
           ⟨"b", "t2", LogLevel.INFO, "m2"⟩,
           ⟨"c", "t3", LogLevel.INFO, "m3"⟩ ] : List LogEntry) []).length ≤ 2 ∧
    runLog 2
        ([ ⟨"a", "t1", LogLevel.INFO, "m1"⟩,
           ⟨"b", "t2", LogLevel.INFO, "m2"⟩,
           ⟨"c", "t3", LogLevel.INFO, "m3"⟩ ] : List LogEntry) [] =
      (([ ⟨"a", "t1", LogLevel.INFO, "m1"⟩,
          ⟨"b", "t2", LogLevel.INFO, "m2"⟩,
          ⟨"c", "t3", LogLevel.INFO, "m3"⟩ ] : List LogEntry).reverse
        ++ ([] : List LogEntry)).take 2 :=
  c2_bounded_event_log 2 _ [] (by decide) (by decide)

/-! ## Mission telemetry ticker (src/App.tsx, variant 1, lines 83-114) -/

/-- One `Math.random()` draw per randomised field of the ticker body, in
evaluation order. -/
structure TickerRand where
  rThrust : ℚ
  rStab : ℚ
  rThermal : ℚ
  rPrec : ℚ
  rCov : ℚ
deriving Repr

/-- The rand draws lie in the `Math.random()` range `[0, 1)`. -/
def TickerRand.InRange (r : TickerRand) : Prop :=
  0 ≤ r.rThrust ∧ r.rThrust < 1 ∧ 0 ≤ r.rStab ∧ r.rStab < 1 ∧
  0 ≤ r.rThermal ∧ r.rThermal < 1 ∧ 0 ≤ r.rPrec ∧ r.rPrec < 1 ∧
  0 ≤ r.rCov ∧ r.rCov < 1

/-- The state touched by the variant-1 ticker: the `telemetry` fields it
rewrites, the `metrics` fields (`uptime`, `precisionRate`, and the
untouched `totalDataProcessed` counter declared in `SystemMetrics`), and
`coverageIndex`. -/
structure TickerState where
  thrust : ℚ
  stability : ℚ
  thermal : ℚ
  uptime : ℕ
  precisionRate : ℚ
  totalProcessed : ℕ
  coverageIndex : ℚ
deriving DecidableEq, Repr

/-- One firing of the variant-1 `setInterval` ticker body at wall-clock
time `now` (epoch ms), with `start = startTimeRef.current`:
`thrust := 98 + rand*2`, `stability := 99.99 + rand*0.01`,
`thermal := 32 + rand*1.5`, `uptime := floor((now - start)/1000)`,
`precisionRate := 99.9999 + rand*0.0001`,
`coverageIndex := min(100, prev + rand*0.01)`. -/
def tickerStep (start now : ℕ) (r : TickerRand) (s : TickerState) : TickerState :=
  { s with
    thrust := 98 + r.rThrust * 2
    stability := (9999 : ℚ)/100 + r.rStab * ((1 : ℚ)/100)
    thermal := 32 + r.rThermal * ((3 : ℚ)/2)
    uptime := (now - start) / 1000
    precisionRate := (999999 : ℚ)/10000 + r.rPrec * ((1 : ℚ)/10000)
    coverageIndex := min 100 (s.coverageIndex + r.rCov * ((1 : ℚ)/100)) }

/-- C3: after one ticker firing with `Math.random()` draws in `[0, 1)` and
a coverage value currently in `[0, 100]`, every percentage field lies in
`[0, 100]`: `precisionRate` is non-negative and does not exceed 100 (it
lies in `[99.9999, 100)`), and `coverageIndex` is clamped at 100
(saturating through `min`), stays in `[0, 100]`, and is monotonically
non-decreasing across the tick. -/
theorem c3_percentages_in_range (start now : ℕ) (r : TickerRand) (s : TickerState)
    (hr : r.InRange) (hc0 : 0 ≤ s.coverageIndex) (hc1 : s.coverageIndex ≤ 100) :
    0 ≤ (tickerStep start now r s).precisionRate ∧
    (tickerStep start now r s).precisionRate ≤ 100 ∧
    0 ≤ (tickerStep start now r s).coverageIndex ∧
    (tickerStep start now r s).coverageIndex ≤ 100 ∧
    s.coverageIndex ≤ (tickerStep start now r s).coverageIndex ∧
    0 ≤ (tickerStep start now r s).thrust ∧
    (tickerStep start now r s).thrust ≤ 100 ∧
    0 ≤ (tickerStep start now r s).stability ∧
    (tickerStep start now r s).stability ≤ 100 := by
  obtain ⟨ht0, ht1, hs0, hs1, _, _, hp0, hp1, hv0, hv1⟩ := hr
  unfold tickerStep
  simp only
  refine ⟨by nlinarith, by nlinarith, ?_, ?_, ?_, by nlinarith, by nlinarith,
    by nlinarith, by nlinarith⟩
  · exact le_min (by norm_num) (by nlinarith)
  · exact min_le_left _ _
  · exact le_min hc1 (by nlinarith)

/-- Witness for C3 at a concrete state and draw vector. -/
theorem c3_percentages_in_range_witness :
    0 ≤ (tickerStep 0 1000 ⟨1/2, 1/2, 1/2, 1/2, 1/2⟩
          ⟨984/10, 999/10, 32, 0, 100, 0, 95⟩).precisionRate ∧
    (tickerStep 0 1000 ⟨1/2, 1/2, 1/2, 1/2, 1/2⟩
          ⟨984/10, 999/10, 32, 0, 100, 0, 95⟩).precisionRate ≤ 100 ∧
    0 ≤ (tickerStep 0 1000 ⟨1/2, 1/2, 1/2, 1/2, 1/2⟩
          ⟨984/10, 999/10, 32, 0, 100, 0, 95⟩).coverageIndex ∧
    (tickerStep 0 1000 ⟨1/2, 1/2, 1/2, 1/2, 1/2⟩
          ⟨984/10, 999/10, 32, 0, 100, 0, 95⟩).coverageIndex ≤ 100 ∧
    (95 : ℚ) ≤ (tickerStep 0 1000 ⟨1/2, 1/2, 1/2, 1/2, 1/2⟩
          ⟨984/10, 999/10, 32, 0, 100, 0, 95⟩).coverageIndex ∧
    0 ≤ (tickerStep 0 1000 ⟨1/2, 1/2, 1/2, 1/2, 1/2⟩
          ⟨984/10, 999/10, 32, 0, 100, 0, 95⟩).thrust ∧
    (tickerStep 0 1000 ⟨1/2, 1/2, 1/2, 1/2, 1/2⟩
          ⟨984/10, 999/10, 32, 0, 100, 0, 95⟩).thrust ≤ 100 ∧
    0 ≤ (tickerStep 0 1000 ⟨1/2, 1/2, 1/2, 1/2, 1/2⟩
          ⟨984/10, 999/10, 32, 0, 100, 0, 95⟩).stability ∧
    (tickerStep 0 1000 ⟨1/2, 1/2, 1/2, 1/2, 1/2⟩
          ⟨984/10, 999/10, 32, 0, 100, 0, 95⟩).stability ≤ 100 :=
  c3_percentages_in_range 0 1000 ⟨1/2, 1/2, 1/2, 1/2, 1/2⟩
    ⟨984/10, 999/10, 32, 0, 100, 0, 95⟩
    (by refine ⟨?_, ?_, ?_, ?_, ?_, ?_, ?_, ?_, ?_, ?_⟩ <;> norm_num)
    (by norm_num) (by norm_num)

/-- Running the ticker once per entry of `times` (the wall-clock instants,
epoch ms, at which the `setInterval` callback fires), with a fixed draw
vector; `uptime` and `totalProcessed` do not depend on the draws. -/
def runTicker (start : ℕ) (times : List ℕ) (r : TickerRand) (s : TickerState) :
    TickerState :=
  times.foldl (fun acc now => tickerStep start now r acc) s

/-- The firing instants of a ticker that fires exactly on its nominal
1000 ms cadence: `start + 1000, start + 2000, …, start + 1000·N`. -/
def regularTimes (start n : ℕ) : List ℕ :=
  (List.range n).map (fun i => start + 1000 * (i + 1))

/-- C4 counterexample: a single ticker firing does not increment `uptime`
by exactly 1 — the code recomputes `uptime` from the wall clock.  With
`start = 0`, an initial `uptime` of 0 and the callback firing at
`now = 5000` ms, one tick moves `uptime` from 0 to 5, not to 1. -/
theorem c4_counterexample :
    (tickerStep 0 5000 ⟨0, 0, 0, 0, 0⟩
      ⟨984/10, 999/10, 32, 0, 100, 0, 95⟩).uptime = 5 ∧
    (5 : ℕ) ≠ 0 + 1 := by
  constructor
  · rfl
  · decide

lemma runTicker_totalProcessed (start : ℕ) (times : List ℕ) (r : TickerRand)
    (s : TickerState) :
    (runTicker start times r s).totalProcessed = s.totalProcessed := by
  induction times generalizing s with
  | nil => rfl
  | cons t ts ih => exact (ih (tickerStep start t r s)).trans rfl

/-- C4 amended: each ticker firing sets `uptime` to the floor of the
elapsed wall-clock seconds since `startTimeRef`, so when the timer fires on
its exact 1000 ms cadence, `uptime` equals `N` after `N` firings (it
increases by exactly `N` from its initial value 0); and the ticker never
touches `totalProcessed` (for any firing instants), so that counter is
trivially non-decreasing across ticks. -/
theorem c4_uptime_recomputed (start n : ℕ) (times : List ℕ) (r : TickerRand)
    (s : TickerState) (hn : 1 ≤ n) :
    (runTicker start (regularTimes start n) r s).uptime = n ∧
    (runTicker start times r s).totalProcessed = s.totalProcessed := by
  refine ⟨?_, runTicker_totalProcessed start times r s⟩
  obtain ⟨m, rfl⟩ : ∃ m, n = m + 1 := ⟨n - 1, by omega⟩
  have hsplit : regularTimes start (m + 1) =
      regularTimes start m ++ [start + 1000 * (m + 1)] := by
    unfold regularTimes
    rw [List.range_succ, List.map_append]
    rfl
  have hfold : runTicker start (regularTimes start (m + 1)) r s =
      tickerStep start (start + 1000 * (m + 1)) r
        (runTicker start (regularTimes start m) r s) := by
    rw [hsplit]
    unfold runTicker
    rw [List.foldl_append]
    rfl
  rw [hfold]
  show (start + 1000 * (m + 1) - start) / 1000 = m + 1
  omega

/-- Witness for C4 amended: three regularly spaced firings from `start = 0`
leave `uptime = 3` and `totalProcessed` untouched. -/
theorem c4_uptime_recomputed_witness :
    (runTicker 0 (regularTimes 0 3) ⟨0, 0, 0, 0, 0⟩
      ⟨984/10, 999/10, 32, 0, 100, 7, 95⟩).uptime = 3 ∧
    (runTicker 0 [123, 4567] ⟨0, 0, 0, 0, 0⟩
      ⟨984/10, 999/10, 32, 0, 100, 7, 95⟩).totalProcessed =
      (⟨984/10, 999/10, 32, 0, 100, 7, 95⟩ : TickerState).totalProcessed :=
  c4_uptime_recomputed 0 3 [123, 4567] ⟨0, 0, 0, 0, 0⟩
    ⟨984/10, 999/10, 32, 0, 100, 7, 95⟩ (by decide)

/-! ## Persistence Store and Downtime Reconciler

No persistence or reconciliation code ships under `src/` (the repository's
spec documents these components, but only their collaborators appear in the
sources), so the definitions below are modelled from the spec. -/

/-- Modelled from the spec: `SessionState`, the unit of persistence (§3),
whose save/load/reconcile code is missing from `src/`.  Fields as listed in
§3. -/
structure SessionState where
  uptimeSeconds : ℕ
  lastActiveTimestamp : ℕ
  totalProcessed : ℕ
  precisionRate : ℚ
  coverageIndex : ℚ
  lockStrength : ℚ
  eventLog : List LogEntry
deriving DecidableEq, Repr

/-- Modelled from the spec: the persisted snapshot document (§6), a
structured document whose fields may individually be missing; missing
fields default on decode rather than failing the load. -/
structure SnapshotDoc where
  uptimeSeconds : Option ℕ
  lastActiveTimestamp : Option ℕ
  totalProcessed : Option ℕ
  precisionRate : Option ℚ
  coverageIndex : Option ℚ
  lockStrength : Option ℚ
  eventLog : Option (List LogEntry)
deriving DecidableEq, Repr

/-- Modelled from the spec: what sits in durable storage — either a
well-formed snapshot document or an undecodable (corrupt) blob. -/
inductive StoredDoc where
  | wellFormed (doc : SnapshotDoc)
  | corrupt
deriving DecidableEq, Repr

/-- Modelled from the spec: the fixed default `SessionState` used at first
start and after a failed decode (§3 lifecycle); the numeric starting values
mirror the dashboard's initial gauges. -/
def defaultSessionState : SessionState :=
  { uptimeSeconds := 0
    lastActiveTimestamp := 0
    totalProcessed := 0
    precisionRate := 100
    coverageIndex := 95
    lockStrength := 0
    eventLog := [] }

/-- Modelled from the spec: encoding a `SessionState` into a snapshot
document (§6) — every field present. -/
def encodeSession (s : SessionState) : SnapshotDoc :=
  { uptimeSeconds := some s.uptimeSeconds
    lastActiveTimestamp := some s.lastActiveTimestamp
    totalProcessed := some s.totalProcessed
    precisionRate := some s.precisionRate
    coverageIndex := some s.coverageIndex
    lockStrength := some s.lockStrength
    eventLog := some s.eventLog }

/-- Modelled from the spec: decoding a snapshot document (§6) — unknown or
missing fields default to the §3 values rather than failing the load. -/
def decodeSession (d : SnapshotDoc) : SessionState :=
  { uptimeSeconds := d.uptimeSeconds.getD defaultSessionState.uptimeSeconds
    lastActiveTimestamp :=
      d.lastActiveTimestamp.getD defaultSessionState.lastActiveTimestamp
    totalProcessed := d.totalProcessed.getD defaultSessionState.totalProcessed
    precisionRate := d.precisionRate.getD defaultSessionState.precisionRate
    coverageIndex := d.coverageIndex.getD defaultSessionState.coverageIndex
    lockStrength := d.lockStrength.getD defaultSessionState.lockStrength
    eventLog := d.eventLog.getD defaultSessionState.eventLog }

/-- Modelled from the spec: `save(state)` (§4.4) serializes the full state
with `lastActiveTimestamp` refreshed to the time of save, overwriting any
prior stored value in one all-or-nothing write (the new store value is a
pure function of the state alone). -/
def saveSession (s : SessionState) (now : ℕ) (_store : Option StoredDoc) :
    Option StoredDoc :=
  some (StoredDoc.wellFormed (encodeSession { s with lastActiveTimestamp := now }))

/-- Modelled from the spec: `load()` (§4.4) returns the decoded prior
snapshot, or absent (`none`) if no snapshot exists or decoding fails. -/
def loadSession (store : Option StoredDoc) : Option SessionState :=
  match store with
  | none => none
  | some StoredDoc.corrupt => none
  | some (StoredDoc.wellFormed d) => some (decodeSession d)

/-- C5: round-trip — loading right after a save returns exactly the saved
state with `lastActiveTimestamp` refreshed to the save time, whatever was
stored before (save overwrites all-or-nothing); and `load` is absent when
no snapshot exists or the snapshot does not decode. -/
theorem c5_save_load_roundtrip (s : SessionState) (now : ℕ)
    (store : Option StoredDoc) :
    loadSession (saveSession s now store) =
      some { s with lastActiveTimestamp := now } ∧
    loadSession none = none ∧
    loadSession (some StoredDoc.corrupt) = none :=
  ⟨rfl, rfl, rfl⟩

/-- Modelled from the spec: the Metric Evolution Unit `tick` (§4.2),
missing from `src/` — increments `uptimeSeconds` by exactly 1, advances
`totalProcessed` by a bounded non-negative amount drawn from an injectable
source (`inc`), and moves the percentage gauges upward by small increments
clamped at 100. -/
def specTick (inc : ℕ) (precInc covInc lockInc : ℚ) (s : SessionState) :
    SessionState :=
  { s with
    uptimeSeconds := s.uptimeSeconds + 1
    totalProcessed := s.totalProcessed + inc
    precisionRate := min 100 (s.precisionRate + precInc)
    coverageIndex := min 100 (s.coverageIndex + covInc)
    lockStrength := min 100 (s.lockStrength + lockInc) }

/-- `n` consecutive `specTick` calls. -/
def specTickN (inc : ℕ) (precInc covInc lockInc : ℚ) :
    ℕ → SessionState → SessionState
  | 0, s => s
  | n + 1, s => specTick inc precInc covInc lockInc
      (specTickN inc precInc covInc lockInc n s)

/-- Modelled from the spec: the minimum downtime threshold of the Downtime
Reconciler (§4.3, "e.g. 5 seconds"). -/
def RECONCILE_THRESHOLD : ℕ := 5

/-- Modelled from the spec: elapsed downtime in whole seconds, floored at 0
(§4.3) — natural-number subtraction and division give both floors. -/
def downtimeSeconds (s : SessionState) (now : ℕ) : ℕ :=
  (now - s.lastActiveTimestamp) / 1000

/-- Modelled from the spec: the Downtime Reconciler (§4.3), missing from
`src/`.  If the downtime `d` exceeds the threshold it applies one batched
closed-form adjustment — `uptimeSeconds + d`, `totalProcessed + d·inc` —
equivalent to `d` ticks on the monotonic counters, appends exactly one log
entry reporting the reconciliation, and returns the adjusted state;
otherwise it is a no-op. -/
def reconcile (inc : ℕ) (entry : LogEntry) (s : SessionState) (now : ℕ) :
    SessionState :=
  let d := downtimeSeconds s now
  if RECONCILE_THRESHOLD < d then
    { s with
      uptimeSeconds := s.uptimeSeconds + d
      totalProcessed := s.totalProcessed + d * inc
      eventLog := addLog LOG_CAP entry s.eventLog }
  else s

lemma specTickN_uptime (inc : ℕ) (p c l : ℚ) (n : ℕ) (s : SessionState) :
    (specTickN inc p c l n s).uptimeSeconds = s.uptimeSeconds + n := by
  induction n with
  | zero => rfl
  | succ m ih =>
      show (specTickN inc p c l m s).uptimeSeconds + 1 = _
      omega

lemma specTickN_totalProcessed (inc : ℕ) (p c l : ℚ) (n : ℕ) (s : SessionState) :
    (specTickN inc p c l n s).totalProcessed = s.totalProcessed + n * inc := by
  induction n with
  | zero => simp [specTickN]
  | succ m ih =>
      show (specTickN inc p c l m s).totalProcessed + inc = _
      rw [ih]
      ring

/-- C6: when the persisted state is `d = downtimeSeconds` seconds stale
with `d` above the threshold, `reconcile` leaves the monotonic counters
exactly where `d` synchronous `specTick` calls (with the same injected
per-tick increment) would leave them, while being a single closed-form
update; when `d` is at or below the threshold, `reconcile` returns the
state unchanged. -/
theorem c6_reconcile_matches_ticks (inc : ℕ) (p c l : ℚ) (entry : LogEntry)
    (s : SessionState) (now : ℕ) :
    (RECONCILE_THRESHOLD < downtimeSeconds s now →
      (reconcile inc entry s now).uptimeSeconds =
        (specTickN inc p c l (downtimeSeconds s now) s).uptimeSeconds ∧
      (reconcile inc entry s now).totalProcessed =
        (specTickN inc p c l (downtimeSeconds s now) s).totalProcessed) ∧
    (downtimeSeconds s now ≤ RECONCILE_THRESHOLD →
      reconcile inc entry s now = s) := by
  constructor
  · intro hd
    rw [specTickN_uptime, specTickN_totalProcessed]
    unfold reconcile
    simp only [if_pos hd]
    exact ⟨trivial, trivial⟩
  · intro hd
    unfold reconcile
    simp only [if_neg (by omega : ¬ RECONCILE_THRESHOLD < downtimeSeconds s now)]

/-- Witness for C6: a state saved at timestamp 0, reconciled at
`now = 20000` ms (20 s of downtime), gains 20 uptime seconds and
`20·3` processed units, matching 20 ticks. -/
theorem c6_reconcile_matches_ticks_witness :
    (reconcile 3 ⟨"r", "t", LogLevel.INFO, "resync"⟩ defaultSessionState
        20000).uptimeSeconds =
      (specTickN 3 1 1 1 (downtimeSeconds defaultSessionState 20000)
        defaultSessionState).uptimeSeconds ∧
    (reconcile 3 ⟨"r", "t", LogLevel.INFO, "resync"⟩ defaultSessionState
        20000).totalProcessed =
      (specTickN 3 1 1 1 (downtimeSeconds defaultSessionState 20000)
        defaultSessionState).totalProcessed :=
  (c6_reconcile_matches_ticks 3 1 1 1 ⟨"r", "t", LogLevel.INFO, "resync"⟩
    defaultSessionState 20000).1 (by decide)

/-! ## Narrative Trigger single-flight guard (src/App.tsx, lines 136-139)

`handleMissionAnalysis` begins with `if (status === ANALYZING) return;`
and then sets the status to `ANALYZING`, resetting it to `ONLINE` when the
cycle completes.  Crucially, the guard does not read the live status: the
function closes over the `status` const of the render in which it was
created, and the interval that invokes it (the effect keyed on
`[isLaunched, coverageIndex]`, lines 117-134) stops re-registering once
`coverageIndex` saturates at 100 — the only regime in which the 15 s timer
survives long enough to fire — freezing the closure with the status
captured at that render.  The guard therefore compares a possibly stale
captured value, modelled below as the `seen` parameter of an invocation,
which is decoupled from the live status.  The cooperative timeline is a
step relation over the live status plus a ghost counter of cycles
currently in flight. -/

/-- The live status together with a ghost count of Narrative Trigger
cycles started and not yet finished. -/
structure FlightState where
  status : SystemStatus
  inFlight : ℕ
deriving DecidableEq, Repr

/-- One atomic event of the cooperative timeline.  An invocation of
`handleMissionAnalysis` carries `seen`, the per-render `status` value its
closure captured — not necessarily the live status.  If `seen` is
`ANALYZING` the guard returns (skip); otherwise the invocation passes the
guard and a cycle starts, whatever the live status is.  A running cycle
completing sets the live status back to `ONLINE`. -/
inductive MissionStep : FlightState → FlightState → Prop
  | invokeSkip (s : FlightState) (seen : SystemStatus) :
      seen = SystemStatus.ANALYZING → MissionStep s s
  | invokeStart (s : FlightState) (seen : SystemStatus) :
      seen ≠ SystemStatus.ANALYZING →
      MissionStep s ⟨SystemStatus.ANALYZING, s.inFlight + 1⟩
  | finish (s : FlightState) :
      0 < s.inFlight → MissionStep s ⟨SystemStatus.ONLINE, s.inFlight - 1⟩

/-- The restriction of `MissionStep` in which every invocation's captured
status is fresh: `seen` coincides with the live status at invocation time.
This is the discipline the single-flight guard needs but the frozen
interval closure does not provide. -/
inductive FreshMissionStep : FlightState → FlightState → Prop
  | invokeSkip (s : FlightState) :
      s.status = SystemStatus.ANALYZING → FreshMissionStep s s
  | invokeStart (s : FlightState) :
      s.status ≠ SystemStatus.ANALYZING →
      FreshMissionStep s ⟨SystemStatus.ANALYZING, s.inFlight + 1⟩
  | finish (s : FlightState) :
      0 < s.inFlight → FreshMissionStep s ⟨SystemStatus.ONLINE, s.inFlight - 1⟩

/-- The app starts `ONLINE` with no cycle in flight. -/
def initFlight : FlightState := ⟨SystemStatus.ONLINE, 0⟩

/-- States the event timeline can reach from startup with the source's
stale-capture guard. -/
def FlightReachable (s : FlightState) : Prop :=
  Relation.ReflTransGen MissionStep initFlight s

/-- States reachable from startup when every invocation's guard reads the
live status. -/
def FreshFlightReachable (s : FlightState) : Prop :=
  Relation.ReflTransGen FreshMissionStep initFlight s

/-- Every fresh step is in particular a step of the source's timeline. -/
lemma FreshMissionStep.toMissionStep {s t : FlightState}
    (h : FreshMissionStep s t) : MissionStep s t := by
  cases h with
  | invokeSkip ht => exact MissionStep.invokeSkip s s.status ht
  | invokeStart ht => exact MissionStep.invokeStart s s.status ht
  | finish ht => exact MissionStep.finish s ht

/-- C7 counterexample: the trace the reviewer-visible source admits once
the interval closure is frozen with a stale `ONLINE` status.  A first
invocation (captured status `ONLINE`) starts a cycle; while that external
call is still outstanding, a second invocation whose frozen closure still
sees `ONLINE` passes the `status === ANALYZING` guard and starts a second
overlapping cycle: the state with two cycles in flight is reachable, so
"at most one cycle in flight at any time" fails. -/
theorem c7_overlap_counterexample :
    FlightReachable ⟨SystemStatus.ANALYZING, 2⟩ ∧ ¬ ((2 : ℕ) ≤ 1) := by
  constructor
  · exact Relation.ReflTransGen.tail
      (Relation.ReflTransGen.tail Relation.ReflTransGen.refl
        (MissionStep.invokeStart initFlight SystemStatus.ONLINE (by decide)))
      (MissionStep.invokeStart ⟨SystemStatus.ANALYZING, 1⟩ SystemStatus.ONLINE
        (by decide))
  · decide

lemma fresh_flight_invariant {s : FlightState} (h : FreshFlightReachable s) :
    s.inFlight ≤ 1 ∧ (s.status ≠ SystemStatus.ANALYZING → s.inFlight = 0) := by
  induction h with
  | refl => exact ⟨by decide, fun _ => rfl⟩
  | tail _ hstep ih =>
      obtain ⟨hle, hidle⟩ := ih
      cases hstep with
      | invokeSkip ht => exact ⟨hle, hidle⟩
      | invokeStart ht =>
          have h0 := hidle ht
          constructor
          · simp only
            omega
          · intro hcontra
            exact absurd rfl hcontra
      | finish ht =>
          constructor
          · simp only
            omega
          · intro _
            simp only
            omega

/-- C7 amended: the `status === ANALYZING` guard enforces single-flight
only when every invocation's captured status is fresh — along timelines of
`FreshMissionStep`, where each guard compares the live status, at most one
Narrative Trigger cycle is in flight in every reachable state, a second
invocation during an outstanding cycle taking the skip transition that
changes nothing.  The source's frozen interval closure does not guarantee
this freshness, and with a stale captured status two cycles can overlap
(see the counterexample). -/
theorem c7_single_flight_fresh_guard (s : FlightState)
    (h : FreshFlightReachable s) : s.inFlight ≤ 1 :=
  (fresh_flight_invariant h).1

/-- Witness for C7 amended at a concrete fresh-guard reachable state:
start a cycle, then hit the guard with a second fresh invocation — the
state still has one cycle in flight. -/
theorem c7_single_flight_fresh_guard_witness :
    (⟨SystemStatus.ANALYZING, 1⟩ : FlightState).inFlight ≤ 1 :=
  c7_single_flight_fresh_guard ⟨SystemStatus.ANALYZING, 1⟩
    (Relation.ReflTransGen.tail
      (Relation.ReflTransGen.tail Relation.ReflTransGen.refl
        (FreshMissionStep.invokeStart initFlight (by decide)))
      (FreshMissionStep.invokeSkip ⟨SystemStatus.ANALYZING, 1⟩ rfl))

/-! ## The Narrative Trigger cycle (src/App.tsx, `handleMissionAnalysis`) -/

/-- The INFO message logged at the start of every `handleMissionAnalysis`
cycle. -/
def scanLogMessage : String :=
  "Multimodal Scan: Tracking awareness trajectory and national orbit..."

/-- The message logged after `generatePrecisionCaption` resolves — always
at SUCCESS level, whatever the call's outcome. -/
def orbitLogMessage : String :=
  "Orbit Report: National payload successfully reaching target altitude."

/-- The in-memory state `handleMissionAnalysis` reads and writes. -/
structure AppState where
  status : SystemStatus
  logs : List LogEntry
  aiMessage : String
deriving DecidableEq, Repr

/-- `handleMissionAnalysis` from `src/App.tsx` (variant 1): bail out if
already `ANALYZING`; otherwise set `ANALYZING`, append the INFO scan entry,
await `generatePrecisionCaption` (outcome `out`, `Math.random()` draw `r`),
set the displayed message to its result, append the SUCCESS orbit entry,
and return to `ONLINE`.  The generated log ids and formatted timestamps
are taken as parameters; the captured video frame only feeds the prompt
payload and is omitted. -/
def handleMissionAnalysis (out : GenOutcome) (r : ℚ)
    (scanId scanTs orbitId orbitTs : String) (s : AppState) : AppState :=
  if s.status = SystemStatus.ANALYZING then s
  else
    let logs1 := addLog LOG_CAP ⟨scanId, scanTs, LogLevel.INFO, scanLogMessage⟩ s.logs
    let msg := generatePrecisionCaption FALLBACK_COMMANDS out r
    let logs2 := addLog LOG_CAP ⟨orbitId, orbitTs, LogLevel.SUCCESS, orbitLogMessage⟩ logs1
    { status := SystemStatus.ONLINE, logs := logs2, aiMessage := msg }

/-- C8 counterexample: a cycle whose external call fails (offline) appends
no ERROR- or WARNING-level entry at all — starting from an empty log, the
log after the failing cycle holds exactly a SUCCESS and an INFO entry —
even though the displayed message is indeed replaced by fallback text. -/
theorem c8_counterexample :
    ((handleMissionAnalysis GenOutcome.offline 0 "a" "t1" "b" "t2"
        ⟨SystemStatus.ONLINE, [], "init"⟩).logs.map LogEntry.level =
      [LogLevel.SUCCESS, LogLevel.INFO]) ∧
    (∀ e ∈ (handleMissionAnalysis GenOutcome.offline 0 "a" "t1" "b" "t2"
        ⟨SystemStatus.ONLINE, [], "init"⟩).logs,
      e.level ≠ LogLevel.ERROR ∧ e.level ≠ LogLevel.WARNING) ∧
    (handleMissionAnalysis GenOutcome.offline 0 "a" "t1" "b" "t2"
        ⟨SystemStatus.ONLINE, [], "init"⟩).aiMessage =
      FALLBACK_COMMANDS.getD 0 "" := by
  refine ⟨by decide, by decide, ?_⟩
  show generatePrecisionCaption FALLBACK_COMMANDS GenOutcome.offline 0 = _
  have hzero : randIndex 0 FALLBACK_COMMANDS.length = 0 := by
    show (Int.floor ((0 : ℚ) * 4)).toNat = 0
    simp
  simp [generatePrecisionCaption, hzero]

/-- C8 amended: when the external generation call fails, the displayed
message is still updated to one of the fixed fallback strings (never left
stale or blank), but the cycle logs the very same entries as a successful
one — the INFO scan entry and the unconditional SUCCESS "Orbit Report"
entry; no ERROR- or WARNING-level entry records the reversion (the
reversion is only reported on the browser console, outside the event
log). -/
theorem c8_fallback_message_but_success_log (out : GenOutcome) (r : ℚ)
    (scanId scanTs orbitId orbitTs : String) (s : AppState)
    (hfail : out = GenOutcome.offline ∨ out = GenOutcome.failure)
    (h0 : 0 ≤ r) (h1 : r < 1) (hst : s.status ≠ SystemStatus.ANALYZING) :
    (handleMissionAnalysis out r scanId scanTs orbitId orbitTs s).aiMessage
      ∈ FALLBACK_COMMANDS ∧
    (handleMissionAnalysis out r scanId scanTs orbitId orbitTs s).aiMessage ≠ "" ∧
    (handleMissionAnalysis out r scanId scanTs orbitId orbitTs s).logs =
      List.take LOG_CAP
        (⟨orbitId, orbitTs, LogLevel.SUCCESS, orbitLogMessage⟩ ::
          List.take LOG_CAP
            (⟨scanId, scanTs, LogLevel.INFO, scanLogMessage⟩ :: s.logs)) := by
  have hne : FALLBACK_COMMANDS ≠ [] := by decide
  have hmem := generate_fail_mem FALLBACK_COMMANDS out r hfail h0 h1 hne
  have hall : ∀ x ∈ FALLBACK_COMMANDS, x ≠ "" := by decide
  unfold handleMissionAnalysis
  rw [if_neg hst]
  exact ⟨hmem, hall _ hmem, rfl⟩

/-- Witness for C8 amended at the concrete offline outcome. -/
theorem c8_fallback_message_but_success_log_witness :
    (handleMissionAnalysis GenOutcome.offline (1/2) "a" "t1" "b" "t2"
        ⟨SystemStatus.ONLINE, [], "init"⟩).aiMessage ∈ FALLBACK_COMMANDS ∧
    (handleMissionAnalysis GenOutcome.offline (1/2) "a" "t1" "b" "t2"
        ⟨SystemStatus.ONLINE, [], "init"⟩).aiMessage ≠ "" ∧
    (handleMissionAnalysis GenOutcome.offline (1/2) "a" "t1" "b" "t2"
        ⟨SystemStatus.ONLINE, [], "init"⟩).logs =
      List.take LOG_CAP
        (⟨"b", "t2", LogLevel.SUCCESS, orbitLogMessage⟩ ::
          List.take LOG_CAP
            (⟨"a", "t1", LogLevel.INFO, scanLogMessage⟩ :: [])) :=
  c8_fallback_message_but_success_log GenOutcome.offline (1/2) "a" "t1" "b" "t2"
    ⟨SystemStatus.ONLINE, [], "init"⟩ (Or.inl rfl) (by norm_num) (by norm_num)
    (by decide)

/-- C9 counterexample: an empty response text is not handled like the
offline / thrown-error cases — it deterministically yields
`FALLBACK_COMMANDS[0]`, ignoring the random draw, while the offline branch
with the same draw `r = 3/10` picks index `⌊0.3·4⌋ = 1`, a different
string.  So the empty-response result is neither a uniform random pick nor
identical to the hard-failure handling. -/
theorem c9_counterexample :
    generatePrecisionCaption FALLBACK_COMMANDS (GenOutcome.success (some "")) (3/10) =
      FALLBACK_COMMANDS.getD 0 "" ∧
    generatePrecisionCaption FALLBACK_COMMANDS GenOutcome.offline (3/10) =
      FALLBACK_COMMANDS.getD 1 "" ∧
    FALLBACK_COMMANDS.getD 0 "" ≠ FALLBACK_COMMANDS.getD 1 "" := by
  refine ⟨rfl, ?_, by decide⟩
  show FALLBACK_COMMANDS.getD (randIndex (3/10) FALLBACK_COMMANDS.length) "" = _
  have hone : randIndex (3/10) FALLBACK_COMMANDS.length = 1 := by
    show (Int.floor ((3 : ℚ)/10 * 4)).toNat = 1
    have hfloor : Int.floor ((3 : ℚ)/10 * 4) = 1 := by
      rw [Int.floor_eq_iff]
      norm_num
    rw [hfloor]
    rfl
  rw [hone]

/-- C9 amended: a response whose text is empty or absent does make
`generatePrecisionCaption` fall back — the result is a fixed member of the
non-empty fallback pool, so the message is never blank — but it is the
deterministic first pool entry `FALLBACK_COMMANDS[0]`, not the uniform
random pick used for the offline and thrown-error cases. -/
theorem c9_empty_text_first_fallback (text : Option String) (r : ℚ)
    (hempty : text.getD "" = "") :
    generatePrecisionCaption FALLBACK_COMMANDS (GenOutcome.success text) r =
      FALLBACK_COMMANDS.getD 0 "" ∧
    generatePrecisionCaption FALLBACK_COMMANDS (GenOutcome.success text) r
      ∈ FALLBACK_COMMANDS ∧
    generatePrecisionCaption FALLBACK_COMMANDS (GenOutcome.success text) r ≠ "" := by
  have heq : generatePrecisionCaption FALLBACK_COMMANDS (GenOutcome.success text) r =
      FALLBACK_COMMANDS.getD 0 "" := by
    unfold generatePrecisionCaption
    simp [hempty]
  have hmem : FALLBACK_COMMANDS.getD 0 "" ∈ FALLBACK_COMMANDS := by decide
  have hne : FALLBACK_COMMANDS.getD 0 "" ≠ "" := by decide
  exact ⟨heq, heq ▸ hmem, heq ▸ hne⟩

/-- Witness for C9 amended at the concrete absent-text response. -/
theorem c9_empty_text_first_fallback_witness :
    generatePrecisionCaption FALLBACK_COMMANDS (GenOutcome.success none) (3/10) =
      FALLBACK_COMMANDS.getD 0 "" ∧
    generatePrecisionCaption FALLBACK_COMMANDS (GenOutcome.success none) (3/10)
      ∈ FALLBACK_COMMANDS ∧
    generatePrecisionCaption FALLBACK_COMMANDS (GenOutcome.success none) (3/10) ≠ "" :=
  c9_empty_text_first_fallback none (3/10) rfl

/-- C10: invoking `handleMissionAnalysis` while the status is already
`ANALYZING` hits the guard on its first line and changes nothing — no log
entry, no message update, no status change. -/
theorem c10_skip_is_silent (out : GenOutcome) (r : ℚ)
    (scanId scanTs orbitId orbitTs : String) (s : AppState)
    (h : s.status = SystemStatus.ANALYZING) :
    handleMissionAnalysis out r scanId scanTs orbitId orbitTs s = s := by
  unfold handleMissionAnalysis
  rw [if_pos h]

/-- Witness for C10 at a concrete `ANALYZING` state. -/
theorem c10_skip_is_silent_witness :
    handleMissionAnalysis GenOutcome.offline 0 "a" "t1" "b" "t2"
        ⟨SystemStatus.ANALYZING, [], "msg"⟩ =
      ⟨SystemStatus.ANALYZING, [], "msg"⟩ :=
  c10_skip_is_silent GenOutcome.offline 0 "a" "t1" "b" "t2"
    ⟨SystemStatus.ANALYZING, [], "msg"⟩ rfl

end PTnPtn
